import Mathlib

/-!
# onos-operator: desired-state resource synthesis

A shallow embedding of `pkg/apis/onos/v1alpha1/types.go` and
`pkg/controller/util/resources.go`, followed by theorems about the identity
resolver, the naming and labelling scheme and the resource constructors.

Modelling conventions
* Go `string` is Lean `String`; the embedding covers strings that are valid UTF-8,
  for which the runes seen by `regexp` are exactly the characters of `String.data`.
* Go `map[string]string` is an association list in the order of the map literal;
  a key is read with `List.lookup`.
* Go `int` (64-bit on the platforms the operator is built for), `int32` and `int64`
  are `Int`; the one place where a width matters (`strconv.ParseInt(_, 10, 32)`)
  carries its bound explicitly.
* A nil pointer or a nil slice returned by a library call is `none` / `[]`.
-/

set_option linter.dupNamespace false

namespace OnosOperator

/-! ## Kubernetes API objects (the fields the operator sets) -/

/-- Go `map[string]string`, as an association list in literal order. -/
abbrev StringMap := List (String × String)

/-- The `metav1.ObjectMeta` fields set by the operator. -/
structure ObjectMeta where
  Name : String := ""
  Namespace : String := ""
  Labels : StringMap := []
  Annotations : StringMap := []
  deriving DecidableEq, Repr

/-- The `corev1.EnvVar` name/value pair. -/
structure EnvVar where
  Name : String := ""
  Value : String := ""
  deriving DecidableEq, Repr

/-- The `corev1.ResourceRequirements` descriptor, opaque to the operator: quantities are kept as
text. -/
structure ResourceRequirements where
  Limits : StringMap := []
  Requests : StringMap := []
  deriving DecidableEq, Repr

/-- The `corev1.VolumeMount` record. -/
structure VolumeMount where
  Name : String := ""
  ReadOnly : Bool := false
  MountPath : String := ""
  SubPath : String := ""
  deriving DecidableEq, Repr

/-- The `corev1.ContainerPort` record. -/
structure ContainerPort where
  Name : String := ""
  ContainerPort : Int := 0
  deriving DecidableEq, Repr

/-- The `corev1.ExecAction` record. -/
structure ExecAction where
  Command : List String := []
  deriving DecidableEq, Repr

/-- The `corev1.Handler` record; only the exec handler is used. -/
structure Handler where
  Exec : Option ExecAction := none
  deriving DecidableEq, Repr

/-- The `corev1.Probe` record. -/
structure Probe where
  Handler : Handler := {}
  InitialDelaySeconds : Int := 0
  TimeoutSeconds : Int := 0
  FailureThreshold : Int := 0
  deriving DecidableEq, Repr

/-- The `corev1.SecurityContext` record. -/
structure SecurityContext where
  Privileged : Option Bool := none
  deriving DecidableEq, Repr

/-- The `corev1.Container` record. -/
structure Container where
  Name : String := ""
  Image : String := ""
  Command : List String := []
  Env : List EnvVar := []
  Resources : ResourceRequirements := {}
  Ports : List ContainerPort := []
  VolumeMounts : List VolumeMount := []
  LivenessProbe : Option Probe := none
  ReadinessProbe : Option Probe := none
  ImagePullPolicy : String := ""
  SecurityContext : Option SecurityContext := none
  deriving DecidableEq, Repr

/-- The `corev1.LocalObjectReference` record. -/
structure LocalObjectReference where
  Name : String := ""
  deriving DecidableEq, Repr

/-- The `corev1.ConfigMapVolumeSource` record. -/
structure ConfigMapVolumeSource where
  LocalObjectReference : LocalObjectReference := {}
  DefaultMode : Option Int := none
  deriving DecidableEq, Repr

/-- The `corev1.EmptyDirVolumeSource` record, with no field set. -/
structure EmptyDirVolumeSource where
  deriving DecidableEq, Repr

/-- The `corev1.VolumeSource` record: the two sources the operator uses. -/
structure VolumeSource where
  ConfigMap : Option ConfigMapVolumeSource := none
  EmptyDir : Option EmptyDirVolumeSource := none
  deriving DecidableEq, Repr

/-- The `corev1.Volume` record. -/
structure Volume where
  Name : String := ""
  VolumeSource : VolumeSource := {}
  deriving DecidableEq, Repr

/-- The `corev1.PodSpec` record. -/
structure PodSpec where
  InitContainers : List Container := []
  Containers : List Container := []
  Volumes : List Volume := []
  deriving DecidableEq, Repr

/-- The `corev1.Pod` object. -/
structure Pod where
  ObjectMeta : ObjectMeta := {}
  Spec : PodSpec := {}
  deriving DecidableEq, Repr

/-- The `corev1.ServicePort` record. -/
structure ServicePort where
  Name : String := ""
  Port : Int := 0
  deriving DecidableEq, Repr

/-- The `corev1.ServiceSpec` record. -/
structure ServiceSpec where
  Ports : List ServicePort := []
  PublishNotReadyAddresses : Bool := false
  ClusterIP : String := ""
  Selector : StringMap := []
  deriving DecidableEq, Repr

/-- The `corev1.Service` object. -/
structure Service where
  ObjectMeta : ObjectMeta := {}
  Spec : ServiceSpec := {}
  deriving DecidableEq, Repr

/-- The `corev1.ConfigMap` object. -/
structure ConfigMap where
  ObjectMeta : ObjectMeta := {}
  Data : StringMap := []
  deriving DecidableEq, Repr

/-! ## `types.go` -/

/-- Type `AtomixClusterSpec` defines the desired state of the Atomix cluster. -/
structure AtomixClusterSpec where
  Service : String := ""
  deriving DecidableEq, Repr

/-- Type `OnosClusterSpec` defines the desired state of an `OnosCluster`. -/
structure OnosClusterSpec where
  Size : Int := 0
  Env : List EnvVar := []
  Resources : ResourceRequirements := {}
  Apps : List String := []
  Atomix : AtomixClusterSpec := {}
  deriving DecidableEq, Repr

/-- Type `OnosCluster` is the schema of the onosclusters API (the status struct has no field). -/
structure OnosCluster where
  ObjectMeta : ObjectMeta := {}
  Spec : OnosClusterSpec := {}
  deriving DecidableEq, Repr

/-! ## `resources.go`: constants -/

def AppKey : String := "app"
def ClusterKey : String := "cluster"
def OnosApp : String := "onos"

def InitScriptsVolume : String := "init-scripts"
def ProbeScriptsVolume : String := "probe-scripts"
def ConfigVolume : String := "config"

def AtomixSuffix : String := "atomix"
def InitSuffix : String := "init"
def ProbeSuffix : String := "probe"

/-! ## The pod-name regular expression `(.*)-([0-9]+)$`

`regexp.FindStringSubmatch` returns the leftmost match, and among the matches at that start the
one a backtracking matcher finds first (greedy operators try the longest repetition first).  The
functions below are that search written out for this one pattern. -/

/-- The character class `[0-9]`. -/
def isDigit (c : Char) : Bool := decide (48 ≤ c.toNat) && decide (c.toNat ≤ 57)

/-- The pattern `.` without the `s` flag: any character but the line feed. -/
def isDot (c : Char) : Bool := c != '\n'

/-- The group `([0-9]+)` followed by `$`, tried at the head of the remaining input.  The greedy
`+` first takes one more digit and goes on; only when that fails it ends the run after the
current digit, where `$` (without the `m` flag: the end of the text) has to hold.  Returns the
text of the group. -/
def matchDigits : List Char → Option (List Char)
  | [] => none
  | c :: cs =>
    if isDigit c then
      match matchDigits cs with
      | some g => some (c :: g)
      | none => if cs.isEmpty then some [c] else none
    else none

/-- The tail `-([0-9]+)$` tried at the head of the remaining input: a literal hyphen, then the
digit group up to the end of the text.  Returns the text of group 2. -/
def matchTail : List Char → Option (List Char)
  | [] => none
  | c :: cs => if c == '-' then matchDigits cs else none

/-- The whole pattern tried at one start position.  The greedy `(.*)` first lets the group take
the next character and goes on; only when that fails it ends the group here and tries the tail.
Returns the texts of groups 1 and 2. -/
def matchHere : List Char → Option (List Char × List Char)
  | [] => (matchTail []).map (fun g2 => ([], g2))
  | c :: cs =>
    if isDot c then
      match matchHere cs with
      | some (g1, g2) => some (c :: g1, g2)
      | none => (matchTail (c :: cs)).map (fun g2 => ([], g2))
    else (matchTail (c :: cs)).map (fun g2 => ([], g2))

/-- The unanchored search: start positions are tried from the left, the first one with a match
wins. -/
def findMatch : List Char → Option (List Char × List Char)
  | [] => matchHere []
  | c :: cs =>
    match matchHere (c :: cs) with
    | some r => some r
    | none => findMatch cs

/-- The call `onosPodRegex.FindStringSubmatch(s)`: nil (the empty list) without a match, otherwise
the whole match followed by the two groups. -/
def onosPodRegex_FindStringSubmatch (s : String) : List String :=
  match findMatch s.data with
  | none => []
  | some (g1, g2) => [String.mk (g1 ++ '-' :: g2), String.mk g1, String.mk g2]

/-! ## `strconv.ParseInt(s, 10, bitSize)` -/

/-- The digit loop of `strconv.ParseUint` in base 10: a character that is not a digit is a syntax
error, a value above `maxVal` a range error (both `none`).  The accumulator never exceeds
`maxVal < 2^64 / 10`, so the loop's 64-bit overflow guards cannot fire. -/
def parseUintLoop (maxVal : Nat) : List Char → Nat → Option Nat
  | [], n => some n
  | c :: cs, n =>
    if isDigit c then
      let n1 := n * 10 + (c.toNat - 48)
      if n1 > maxVal then none else parseUintLoop maxVal cs n1
    else none

/-- The function `strconv.ParseUint(s, 10, bitSize)`; the empty string is a syntax error. -/
def ParseUint (s : List Char) (bitSize : Nat) : Option Nat :=
  if s.isEmpty then none else parseUintLoop (2 ^ bitSize - 1) s 0

/-- The function `strconv.ParseInt(s, 10, bitSize)`: an optional sign, then `ParseUint`, then the
signed range check.  `none` stands for a non-nil `err`. -/
def ParseInt (s : List Char) (bitSize : Nat) : Option Int :=
  match s with
  | [] => none
  | c :: cs =>
    let neg := c == '-'
    let body := if c == '+' || c == '-' then cs else c :: cs
    match ParseUint body bitSize with
    | none => none
    | some un =>
      let cutoff := 2 ^ (bitSize - 1)
      if !neg && decide (cutoff ≤ un) then none
      else if neg && decide (cutoff < un) then none
      else some (if neg then -(un : Int) else (un : Int))

/-! ## `resources.go`: identity resolver -/

/-- Function `getParentNameAndOrdinal` gets the name of the pod's parent and the pod's ordinal as
extracted from its name; without a match the parent is the empty string and the ordinal is -1. -/
def getParentNameAndOrdinal (pod : Pod) : String × Int :=
  let parent := ""
  let ordinal : Int := -1
  let subMatches := onosPodRegex_FindStringSubmatch pod.ObjectMeta.Name
  if subMatches.length < 3 then (parent, ordinal)
  else
    let parent := subMatches.getD 1 ""
    match ParseInt (subMatches.getD 2 "").data 32 with
    | some i => (parent, i)
    | none => (parent, ordinal)

/-- Function `getParentName` gets the name of the pod's parent. -/
def getParentName (pod : Pod) : String := (getParentNameAndOrdinal pod).1

/-- Function `getOrdinal` gets the pod's ordinal. -/
def getOrdinal (pod : Pod) : Int := (getParentNameAndOrdinal pod).2

/-! ## `resources.go`: names and labels -/

/-- Function `getPodName`: `fmt.Sprintf("%s-%d", set.Name, ordinal)`. -/
def getPodName (set : OnosCluster) (ordinal : Int) : String :=
  set.ObjectMeta.Name ++ "-" ++ toString ordinal

/-- Function `getClusterLabels` returns the labels for an ONOS cluster pod. -/
def getClusterLabels (cluster : OnosCluster) : StringMap :=
  [(AppKey, OnosApp), (ClusterKey, cluster.ObjectMeta.Name)]

/-- Function `getResourceName`: `fmt.Sprintf("%s-%s", cluster.Name, resource)`. -/
def getResourceName (cluster : OnosCluster) (resource : String) : String :=
  cluster.ObjectMeta.Name ++ "-" ++ resource

def getOnosServiceName (cluster : OnosCluster) : String := cluster.ObjectMeta.Name

def getInitConfigMapName (cluster : OnosCluster) : String := getResourceName cluster InitSuffix

def getAtomixServiceName (cluster : OnosCluster) : String := getResourceName cluster AtomixSuffix

def getInitScriptsVolumeName (cluster : OnosCluster) : String := getResourceName cluster InitSuffix

def getProbeScriptsVolumeName (cluster : OnosCluster) : String :=
  getResourceName cluster ProbeSuffix

/-! ## `resources.go`: resource constructors -/

/-- Function `NewOnosService` returns a new headless service for the ONOS cluster. -/
def NewOnosService (cluster : OnosCluster) : Service :=
  { ObjectMeta :=
      { Name := getOnosServiceName cluster
        Namespace := cluster.ObjectMeta.Namespace
        Labels := getClusterLabels cluster
        Annotations := [("service.alpha.kubernetes.io/tolerate-unready-endpoints", "true")] }
    Spec :=
      { Ports := [{ Name := cluster.ObjectMeta.Name ++ "-node", Port := 5679 }]
        PublishNotReadyAddresses := true
        ClusterIP := "None"
        Selector := [(AppKey, cluster.ObjectMeta.Name)] } }

/-- Function `getInitConfigMapScript` returns the script generating an Atomix configuration (a
constant text; the cluster argument is not used). -/
def getInitConfigMapScript (_cluster : OnosCluster) : String :=
  String.intercalate "\n"
    [ "",
      "#!/usr/bin/env bash",
      "apt-get update > /dev/null 2>&1",
      "apt-get -y install dnsutils > /dev/null 2>&1",
      "USER=$(whoami)",
      "HOST=$(hostname -s)",
      "DOMAIN=$(hostname -d)",
      "CONFIG_DIR=\"/root/onos/config\"",
      "CONFIG_FILE=\"$CONFIG_DIR/cluster.json\"",
      "HEAP=2G",
      "function print_usage() \x7b",
      "    echo \"\\",
      "    Usage: start-onos [OPTIONS]",
      "    Starts an ONOS node based on the supplied options.",
      "    \x2d-service           The name of the Atomix service to which to connect.",
      "    \"",
      "\x7d",
      "function print_config() \x7b",
      "    echo \"\x7b\"",
      "    print_node",
      "    print_storage",
      "    echo \"\x7d\"",
      "\x7d",
      "function print_node() \x7b",
      "    echo \"  \\\"node\\\": \x7b\"",
      "    echo \"    \\\"id\\\": \\\"$HOST\\\",\"",
      "    echo \"    \\\"host\\\": \\\"$HOST\\\",\"",
      "    echo \"    \\\"port\\\": 9876\"",
      "    echo \"  \x7d,\"",
      "\x7d",
      "function print_storage() \x7b",
      "    echo \"  \\\"service\\\": \\\"$ATOMIX_CLUSTER-service\\\",\"",
      "\x7d",
      "ATOMIX_CLUSTER=$1",
      "until nslookup \"$ATOMIX_CLUSTER-service\" > /dev/null 2>&1; do sleep 2; done;",
      "print_config" ]

/-- Function `NewInitConfigMap` returns a new ConfigMap for initializing ONOS nodes. -/
def NewInitConfigMap (cluster : OnosCluster) : ConfigMap :=
  { ObjectMeta :=
      { Name := getInitConfigMapName cluster
        Namespace := cluster.ObjectMeta.Namespace
        Labels := getClusterLabels cluster }
    Data := [("create_config.sh", getInitConfigMapScript cluster)] }

/-- Function `getProbeConfigMapScript` returns the script probing an ONOS node (a constant
text). -/
def getProbeConfigMapScript (_cluster : OnosCluster) : String :=
  String.intercalate "\n"
    [ "",
      "#!/bin/bash",
      "set -e",
      "host=$(hostname -s)",
      "config=$(curl -s http://$host:8181/onos/v1/cluster/$host \x2d-user onos:rocks)",
      "echo $config",
      "printf \x27%q\x27 $config | grep -q \"READY\"" ]

/-- Function `NewProbeConfigMap` returns a new ConfigMap for probing ONOS nodes.  As in the
source, its name is computed by `getInitConfigMapName`. -/
def NewProbeConfigMap (cluster : OnosCluster) : ConfigMap :=
  { ObjectMeta :=
      { Name := getInitConfigMapName cluster
        Namespace := cluster.ObjectMeta.Namespace
        Labels := getClusterLabels cluster }
    Data := [("check-onos-status", getProbeConfigMapScript cluster)] }

/-- Function `newInitContainer`: the container that writes the cluster configuration. -/
def newInitContainer (atomixCluster : String) : Container :=
  { Name := "configure"
    Image := "ubuntu:16.04"
    Env := [{ Name := "ATOMIX_CLUSTER", Value := atomixCluster }]
    Command :=
      [ "bash", "-c",
        "/scripts/configure-onos.sh $ATOMIX_CLUSTER > /config/cluster.json && touch /config/active" ]
    VolumeMounts :=
      [ { Name := InitScriptsVolume, MountPath := "/scripts" },
        { Name := ConfigVolume, MountPath := "/config" } ] }

def newInitContainers (atomixCluster : String) : List Container :=
  [newInitContainer atomixCluster]

/-- Function `newContainer`: the main ONOS container.  The loop over `apps` appends one mount per
application to the two fixed mounts. -/
def newContainer (env : List EnvVar) (resources : ResourceRequirements) (apps : List String) :
    Container :=
  let privileged := true
  let volumeMounts : List VolumeMount :=
    [ { Name := ProbeScriptsVolume
        MountPath := "/root/onos/bin/check-onos-status"
        SubPath := "check-onos-status" },
      { Name := ConfigVolume
        MountPath := "/root/onos/config/cluster.json"
        SubPath := "cluster.json" } ]
  let volumeMounts := apps.foldl
    (fun (vms : List VolumeMount) (app : String) =>
      vms ++ [{ Name := ConfigVolume
                MountPath := "/root/onos/apps/" ++ app ++ "/active"
                SubPath := "active" }])
    volumeMounts
  { Name := "onos"
    Image := "onosproject/onos:2.0.0-rc2"
    ImagePullPolicy := "Always"
    Env := env
    Resources := resources
    Ports :=
      [ { Name := "openflow", ContainerPort := 6653 },
        { Name := "ovsdb", ContainerPort := 6640 },
        { Name := "east-west", ContainerPort := 9876 },
        { Name := "cli", ContainerPort := 8101 },
        { Name := "ui", ContainerPort := 8181 } ]
    SecurityContext := some { Privileged := some privileged }
    ReadinessProbe := some
      { Handler := { Exec := some { Command := ["sh", "-c", "/root/onos/bin/check-onos-status"] } }
        InitialDelaySeconds := 30
        TimeoutSeconds := 15
        FailureThreshold := 10 }
    LivenessProbe := some
      { Handler := { Exec := some { Command := ["sh", "-c", "/root/onos/bin/check-onos-status"] } }
        InitialDelaySeconds := 300
        TimeoutSeconds := 15
        FailureThreshold := 5 }
    VolumeMounts := volumeMounts }

def newContainers (env : List EnvVar) (resources : ResourceRequirements) (apps : List String) :
    List Container :=
  [newContainer env resources apps]

/-- Function `NewOnosPod` returns a new pod for an ONOS node. -/
def NewOnosPod (cluster : OnosCluster) (ordinal : Int) : Pod :=
  let atomixCluster :=
    if cluster.Spec.Atomix.Service = "" then getAtomixServiceName cluster
    else cluster.Spec.Atomix.Service
  let defaultMode : Int := 0o744
  { ObjectMeta :=
      { Name := getPodName cluster ordinal
        Namespace := cluster.ObjectMeta.Namespace
        Labels := getClusterLabels cluster }
    Spec :=
      { InitContainers := newInitContainers atomixCluster
        Containers := newContainers cluster.Spec.Env cluster.Spec.Resources cluster.Spec.Apps
        Volumes :=
          [ { Name := InitScriptsVolume
              VolumeSource :=
                { ConfigMap := some
                    { LocalObjectReference := { Name := getInitScriptsVolumeName cluster }
                      DefaultMode := some defaultMode } } },
            { Name := ProbeScriptsVolume
              VolumeSource :=
                { ConfigMap := some
                    { LocalObjectReference := { Name := getProbeScriptsVolumeName cluster }
                      DefaultMode := some defaultMode } } },
            { Name := ConfigVolume
              VolumeSource := { EmptyDir := some {} } } ] } }

/-! ## Observations used in the statements -/

/-- The value of a digit string read from the left, starting from the accumulator `a`: the
quantity the loop of `parseUintLoop` accumulates. -/
def decVal (a : Nat) (l : List Char) : Nat := l.foldl (fun n c => n * 10 + (c.toNat - 48)) a

/-- A pod that has the given name (all other fields empty). -/
def podNamed (name : String) : Pod := { ObjectMeta := { Name := name } }

/-- A cluster that has the given name (all other fields empty). -/
def clusterNamed (name : String) : OnosCluster := { ObjectMeta := { Name := name } }

/-- The name of the ConfigMap that the pod volume called `volume` refers to, if the pod declares
such a volume and it is backed by a ConfigMap. -/
def configMapRef (pod : Pod) (volume : String) : Option String :=
  match pod.Spec.Volumes.find? (fun v => v.Name == volume) with
  | some v => v.VolumeSource.ConfigMap.map (fun src => src.LocalObjectReference.Name)
  | none => none

/-- Every pair of the selector is a label: the pod is selected. -/
def selects (selector labels : StringMap) : Bool :=
  selector.all (fun kv => labels.lookup kv.1 == some kv.2)

/-- A cluster that has the given name and application list (all other fields empty). -/
def clusterWithApps (name : String) (apps : List String) : OnosCluster :=
  { ObjectMeta := { Name := name }, Spec := { Apps := apps } }

/-- The container with its volume mounts left out. -/
def withoutVolumeMounts (c : Container) : Container := { c with VolumeMounts := [] }

/-- The pod with the volume mounts of its main containers left out: all the fields that a change
of the main containers' mount sets cannot touch. -/
def withoutMainMounts (pod : Pod) : Pod :=
  { pod with Spec := { pod.Spec with Containers := pod.Spec.Containers.map withoutVolumeMounts } }

/-- The pod with its name left out: all the fields but `ObjectMeta.Name`. -/
def withoutName (pod : Pod) : Pod :=
  { pod with ObjectMeta := { pod.ObjectMeta with Name := "" } }

/-- The cluster with another `Spec.Size`, all other fields kept. -/
def withSize (cluster : OnosCluster) (size : Int) : OnosCluster :=
  { cluster with Spec := { cluster.Spec with Size := size } }

/-- The path that a `bash -c` or `sh -c` command runs: the first word of the command line, which
is the third element of the command. -/
def commandPath (command : List String) : String :=
  String.mk ((command.getD 2 "").data.takeWhile (fun c => c != ' '))

/-- The keys of a map, in literal order. -/
def keys (m : StringMap) : List String := m.map Prod.fst

/-! ## Lemmas: the pattern search -/

theorem isDigit_ne_hyphen {c : Char} (h : isDigit c = true) : c ≠ '-' := by
  rintro rfl
  revert h
  decide

theorem matchDigits_eq_some : ∀ (l : List Char) {g : List Char}, matchDigits l = some g →
    g = l ∧ l ≠ [] ∧ l.all isDigit = true
  | [], g, h => by simp [matchDigits] at h
  | c :: cs, g, h => by
    simp only [matchDigits] at h
    split at h
    · rename_i hc
      split at h
      · rename_i g' hrec
        obtain ⟨h1, -, h3⟩ := matchDigits_eq_some cs hrec
        cases h
        exact ⟨by rw [h1], List.cons_ne_nil _ _,
          by simp only [List.all_cons, hc, h3, Bool.and_self]⟩
      · split at h
        · rename_i hnil
          cases h
          have e : cs = [] := List.isEmpty_iff.mp hnil
          subst e
          exact ⟨rfl, List.cons_ne_nil _ _, by simp only [List.all_cons, hc, List.all_nil,
            Bool.and_self]⟩
        · cases h
    · cases h

theorem matchDigits_complete : ∀ (l : List Char), l ≠ [] → l.all isDigit = true →
    matchDigits l = some l
  | [], hne, _ => absurd rfl hne
  | [c], _, hd => by
    simp only [List.all_cons, List.all_nil, Bool.and_true] at hd
    simp only [matchDigits, hd, if_true, List.isEmpty_nil]
  | c :: d :: cs, _, hd => by
    simp only [List.all_cons, Bool.and_eq_true] at hd
    have ih := matchDigits_complete (d :: cs) (List.cons_ne_nil _ _)
      (by simp only [List.all_cons, hd.2.1, hd.2.2, Bool.and_self])
    rw [matchDigits, if_pos hd.1, ih]

theorem matchTail_eq_some {l g2 : List Char} (h : matchTail l = some g2) :
    l = '-' :: g2 ∧ g2 ≠ [] ∧ g2.all isDigit = true := by
  cases l with
  | nil => simp [matchTail] at h
  | cons c ds =>
    simp only [matchTail] at h
    split at h
    · rename_i hc
      obtain ⟨h1, h2, h3⟩ := matchDigits_eq_some ds h
      have hc2 : c = '-' := by simpa using hc
      subst h1
      exact ⟨by rw [hc2], h2, h3⟩
    · cases h

theorem matchTail_hyphen {ds : List Char} (hne : ds ≠ []) (hd : ds.all isDigit = true) :
    matchTail ('-' :: ds) = some ds := by
  simp only [matchTail, beq_self_eq_true, if_true]
  exact matchDigits_complete ds hne hd

theorem matchHere_sound : ∀ (l : List Char) {g1 g2 : List Char}, matchHere l = some (g1, g2) →
    l = g1 ++ '-' :: g2 ∧ g2 ≠ [] ∧ g2.all isDigit = true ∧ g1.all isDot = true
  | [], g1, g2, h => by simp [matchHere, matchTail] at h
  | c :: cs, g1, g2, h => by
    have tailCase : Option.map (fun g2 => (([] : List Char), g2)) (matchTail (c :: cs))
        = some (g1, g2) → c :: cs = g1 ++ '-' :: g2 ∧ g2 ≠ [] ∧ g2.all isDigit = true
          ∧ g1.all isDot = true := by
      intro ht
      rcases hm : matchTail (c :: cs) with _ | r
      · rw [hm] at ht; cases ht
      · rw [hm] at ht
        simp only [Option.map_some', Option.some.injEq, Prod.mk.injEq] at ht
        obtain ⟨rfl, rfl⟩ := ht
        obtain ⟨h1, h2, h3⟩ := matchTail_eq_some hm
        exact ⟨by simpa using h1, h2, h3, rfl⟩
    simp only [matchHere] at h
    split at h
    · rename_i hdot
      split at h
      · rename_i a b hrec
        simp only [Option.some.injEq, Prod.mk.injEq] at h
        obtain ⟨rfl, rfl⟩ := h
        obtain ⟨h1, h2, h3, h4⟩ := matchHere_sound cs hrec
        refine ⟨by rw [h1]; rfl, h2, h3, ?_⟩
        simp only [List.all_cons, hdot, h4, Bool.and_self]
      · exact tailCase h
    · exact tailCase h

theorem matchHere_none_of_digits {ds : List Char} (hd : ds.all isDigit = true) :
    matchHere ds = none := by
  rcases hm : matchHere ds with _ | ⟨g1, g2⟩
  · rfl
  · obtain ⟨h1, -, -, -⟩ := matchHere_sound ds hm
    have hmem : '-' ∈ ds := by rw [h1]; simp
    exact absurd rfl (isDigit_ne_hyphen (List.all_eq_true.mp hd _ hmem))

theorem matchHere_complete : ∀ (q : List Char) {ds : List Char}, q.all isDot = true → ds ≠ [] →
    ds.all isDigit = true → matchHere (q ++ '-' :: ds) = some (q, ds)
  | [], ds, _, hne, hd => by
    have hdot : isDot '-' = true := by decide
    simp only [List.nil_append, matchHere, hdot, if_true, matchHere_none_of_digits hd,
      matchTail_hyphen hne hd, Option.map_some']
  | c :: q, ds, hq, hne, hd => by
    simp only [List.all_cons, Bool.and_eq_true] at hq
    have ih := matchHere_complete q hq.2 hne hd
    show matchHere (c :: (q ++ '-' :: ds)) = some (c :: q, ds)
    simp only [matchHere, hq.1, if_true, ih]

theorem findMatch_sound : ∀ (l : List Char) {g1 g2 : List Char}, findMatch l = some (g1, g2) →
    ∃ pre, l = pre ++ (g1 ++ '-' :: g2) ∧ g2 ≠ [] ∧ g2.all isDigit = true ∧ g1.all isDot = true
  | [], g1, g2, h => by simp [findMatch, matchHere, matchTail] at h
  | c :: cs, g1, g2, h => by
    simp only [findMatch] at h
    split at h
    · rename_i r hr
      cases h
      exact ⟨[], matchHere_sound _ hr⟩
    · obtain ⟨pre, h1, h2⟩ := findMatch_sound cs h
      exact ⟨c :: pre, by rw [h1]; rfl, h2⟩

theorem findMatch_complete {q ds : List Char} (hq : q.all isDot = true) (hne : ds ≠ [])
    (hd : ds.all isDigit = true) : findMatch (q ++ '-' :: ds) = some (q, ds) := by
  have h := matchHere_complete q hq hne hd
  cases q with
  | nil => simp only [List.nil_append] at h ⊢; simp only [findMatch, h]
  | cons c q => simp only [List.cons_append] at h ⊢; simp only [findMatch, h]

/-- Two splits of one text at a hyphen that is followed by no further hyphen coincide. -/
theorem split_last_hyphen : ∀ (a a' : List Char) {b b' : List Char},
    a ++ '-' :: b = a' ++ '-' :: b' → '-' ∉ b → '-' ∉ b' → a = a' ∧ b = b'
  | [], [], b, b', h, _, _ => by simpa using h
  | [], c :: a', b, b', h, hb, _ => by
    simp only [List.nil_append, List.cons_append, List.cons.injEq] at h
    exact absurd (by rw [h.2]; simp) hb
  | c :: a, [], b, b', h, _, hb' => by
    simp only [List.nil_append, List.cons_append, List.cons.injEq] at h
    exact absurd (by rw [← h.2]; simp) hb'
  | c :: a, c' :: a', b, b', h, hb, hb' => by
    simp only [List.cons_append, List.cons.injEq] at h
    obtain ⟨h1, h2⟩ := split_last_hyphen a a' h.2 hb hb'
    exact ⟨by rw [h.1, h1], h2⟩

theorem not_mem_hyphen_of_digits {ds : List Char} (hd : ds.all isDigit = true) : '-' ∉ ds :=
  fun hmem => absurd rfl (isDigit_ne_hyphen (List.all_eq_true.mp hd _ hmem))

/-- Whatever precedes it, a final hyphen-digit group is found, and it is group 2. -/
theorem findMatch_group2 : ∀ (p : List Char) {ds : List Char}, ds ≠ [] → ds.all isDigit = true →
    ∃ pre g1, p = pre ++ g1 ∧ findMatch (p ++ '-' :: ds) = some (g1, ds)
  | [], ds, hne, hd => ⟨[], [], rfl, findMatch_complete rfl hne hd⟩
  | c :: p, ds, hne, hd => by
    rcases hm : matchHere (c :: p ++ '-' :: ds) with _ | ⟨g1, g2⟩
    · obtain ⟨pre, g1, h1, h2⟩ := findMatch_group2 p hne hd
      refine ⟨c :: pre, g1, by rw [h1]; rfl, ?_⟩
      simp only [List.cons_append] at hm ⊢
      simp only [findMatch, hm, h2]
    · obtain ⟨h1, -, h3, -⟩ := matchHere_sound _ hm
      obtain ⟨e1, e2⟩ := split_last_hyphen _ _ h1 (not_mem_hyphen_of_digits hd)
        (not_mem_hyphen_of_digits h3)
      subst e2
      refine ⟨[], g1, by rw [← e1]; rfl, ?_⟩
      simp only [List.cons_append] at hm ⊢
      simp only [findMatch, hm]

/-! ## Lemmas: decimal rendering and parsing -/

theorem decVal_nil (a : Nat) : decVal a [] = a := rfl

theorem decVal_cons (a : Nat) (c : Char) (l : List Char) :
    decVal a (c :: l) = decVal (a * 10 + (c.toNat - 48)) l := rfl

theorem decVal_append (a : Nat) (l₁ l₂ : List Char) :
    decVal a (l₁ ++ l₂) = decVal (decVal a l₁) l₂ := by
  simp only [decVal, List.foldl_append]

theorem le_decVal : ∀ (l : List Char) (a : Nat), a ≤ decVal a l
  | [], a => Nat.le_refl a
  | c :: l, a => by
    rw [decVal_cons]
    exact Nat.le_trans (by omega) (le_decVal l _)

theorem parseUintLoop_digits (maxVal : Nat) : ∀ (l : List Char) (a : Nat),
    l.all isDigit = true → a ≤ maxVal →
    parseUintLoop maxVal l a = if decVal a l ≤ maxVal then some (decVal a l) else none
  | [], a, _, ha => by
    simp only [parseUintLoop, decVal_nil, if_pos ha]
  | c :: l, a, h, _ => by
    simp only [List.all_cons, Bool.and_eq_true] at h
    simp only [parseUintLoop, h.1, if_true, decVal_cons]
    split
    · rename_i hgt
      have := le_decVal l (a * 10 + (c.toNat - 48))
      rw [if_neg (by omega)]
    · exact parseUintLoop_digits maxVal l _ h.2 (by omega)

/-- On a non-empty digit string `ParseInt(_, 10, 32)` returns the value when it fits in 31 bits
and an error otherwise. -/
theorem ParseInt_digits {ds : List Char} (hne : ds ≠ []) (hd : ds.all isDigit = true) :
    ParseInt ds 32 = if decVal 0 ds < 2 ^ 31 then some (decVal 0 ds : Int) else none := by
  cases ds with
  | nil => exact absurd rfl hne
  | cons c cs =>
    have hc : isDigit c = true := by
      simp only [List.all_cons, Bool.and_eq_true] at hd; exact hd.1
    have hloop := parseUintLoop_digits (2 ^ 32 - 1) (c :: cs) 0 hd (Nat.zero_le _)
    have hplus : c ≠ '+' := by rintro rfl; revert hc; decide
    have hp : (c == '+') = false := by simpa using hplus
    have hs2 : (c == '-') = false := by simpa using isDigit_ne_hyphen hc
    simp only [ParseInt, ParseUint, hp, hs2, Bool.or_self, Bool.false_eq_true, if_false,
      List.isEmpty_cons, hloop, Bool.not_false, Bool.true_and, Bool.false_and, decide_eq_true_eq]
    have e31 : (2 : Nat) ^ (32 - 1) = 2 ^ 31 := rfl
    rw [e31]
    by_cases h31 : decVal 0 (c :: cs) < 2 ^ 31
    · have h32 : decVal 0 (c :: cs) ≤ 2 ^ 32 - 1 := by
        have : (2 : Nat) ^ 31 ≤ 2 ^ 32 - 1 := by decide
        omega
      simp only [if_pos h32, if_pos h31, if_neg (Nat.not_le.mpr h31)]
    · by_cases h32 : decVal 0 (c :: cs) ≤ 2 ^ 32 - 1
      · simp only [if_pos h32, if_neg h31, if_pos (Nat.not_lt.mp h31)]
      · simp only [if_neg h32, if_neg h31]

theorem digitChar_spec : ∀ m, m < 10 →
    isDigit (Nat.digitChar m) = true ∧ (Nat.digitChar m).toNat - 48 = m := by
  decide

theorem toDigitsCore_spec : ∀ (fuel n : Nat) (ds : List Char), n < fuel →
    ∃ l, Nat.toDigitsCore 10 fuel n ds = l ++ ds ∧ l ≠ [] ∧ l.all isDigit = true ∧
      ∀ a, decVal a l = a * 10 ^ l.length + n
  | 0, n, _, h => absurd h (Nat.not_lt_zero n)
  | fuel + 1, n, ds, h => by
    obtain ⟨hdig, hval⟩ := digitChar_spec (n % 10) (Nat.mod_lt _ (by decide))
    simp only [Nat.toDigitsCore]
    split
    · rename_i hz
      refine ⟨[Nat.digitChar (n % 10)], rfl, by simp, by simp [hdig], ?_⟩
      intro a
      simp only [decVal_cons, decVal_nil, hval, List.length_singleton, pow_one]
      omega
    · rename_i hz
      obtain ⟨l, h1, -, h3, h4⟩ := toDigitsCore_spec fuel (n / 10)
        (Nat.digitChar (n % 10) :: ds) (by omega)
      refine ⟨l ++ [Nat.digitChar (n % 10)], by rw [h1]; simp, by simp, ?_, ?_⟩
      · simp [List.all_append, h3, hdig]
      · intro a
        rw [decVal_append, h4, decVal_cons, decVal_nil, hval, List.length_append,
          List.length_singleton, pow_succ]
        have := Nat.div_add_mod n 10
        nlinarith [this]

/-- The decimal rendering of a natural number is a non-empty digit string with that value. -/
theorem repr_spec (n : Nat) :
    (toString n).data ≠ [] ∧ (toString n).data.all isDigit = true ∧
      ∀ a, decVal a (toString n).data = a * 10 ^ (toString n).data.length + n := by
  obtain ⟨l, h1, h2, h3, h4⟩ := toDigitsCore_spec (n + 1) n [] (Nat.lt_succ_self n)
  have e : (toString n).data = l := by
    show Nat.toDigits 10 n = l
    rw [Nat.toDigits, h1, List.append_nil]
  rw [e]
  exact ⟨h2, h3, h4⟩

theorem decVal_zeros (k : Nat) : decVal 0 (List.replicate k '0') = 0 := by
  induction k with
  | zero => rfl
  | succ k ih => rw [List.replicate_succ, decVal_cons]; exact ih

theorem toString_nat_injective {m n : Nat} (h : toString m = toString n) : m = n := by
  have hm := (repr_spec m).2.2 0
  have hn := (repr_spec n).2.2 0
  rw [h] at hm
  rw [hm] at hn
  omega

/-! ## Lemmas: the identity resolver -/

theorem getParentNameAndOrdinal_of_match {pod : Pod} {g1 g2 : List Char}
    (h : findMatch pod.ObjectMeta.Name.data = some (g1, g2)) :
    getParentNameAndOrdinal pod =
      (String.mk g1, match ParseInt g2 32 with | some i => i | none => -1) := by
  simp only [getParentNameAndOrdinal, onosPodRegex_FindStringSubmatch, h, List.length_cons,
    List.length_nil]
  rw [if_neg (by decide)]
  simp only [List.getD_cons_succ, List.getD_cons_zero]
  split <;> rename_i hp <;> simp only [hp]

theorem getParentNameAndOrdinal_of_no_match {pod : Pod}
    (h : findMatch pod.ObjectMeta.Name.data = none) :
    getParentNameAndOrdinal pod = ("", -1) := by
  simp only [getParentNameAndOrdinal, onosPodRegex_FindStringSubmatch, h, List.length_nil]
  rfl

theorem data_hyphen_append (Q D : String) : (Q ++ "-" ++ D).data = Q.data ++ '-' :: D.data := by
  simp only [String.data_append, List.append_assoc]
  rfl

/-- A text whose last character is not a digit, or that is empty, does not end with a hyphen
followed by digits. -/
theorem not_hyphen_digits_of_getLast (name : String)
    (h : ∀ c, name.data.getLast? = some c → isDigit c = false) (pre ds : String)
    (hne : ds.data ≠ []) (hd : ds.data.all isDigit = true) : name ≠ pre ++ "-" ++ ds := by
  rintro rfl
  rw [data_hyphen_append] at h
  have hl : (pre.data ++ '-' :: ds.data).getLast? = some (ds.data.getLast hne) := by
    rw [List.getLast?_append_of_ne_nil _ (by simp), List.getLast?_cons,
      List.getLast?_eq_getLast _ hne]
    rfl
  have := h _ hl
  rw [List.all_eq_true.mp hd _ (List.getLast_mem hne)] at this
  cases this

/-! ## Identity resolver: round trip, sentinel, trailing group, leading zeros -/

/-- C1 (as amended): for every cluster whose name `P` contains no line feed and every ordinal
`0 ≤ i ≤ 2^31 - 1`, the pod name `getPodName` produces is `P ++ "-" ++ decimal i`, and
`getParentNameAndOrdinal` applied to a pod of that name returns exactly `(P, i)`. -/
theorem getParentNameAndOrdinal_getPodName (cluster : OnosCluster) (pod : Pod) (i : Int)
    (hP : '\n' ∉ cluster.ObjectMeta.Name.data) (h0 : 0 ≤ i) (hmax : i ≤ 2 ^ 31 - 1)
    (hname : pod.ObjectMeta.Name = getPodName cluster i) :
    getPodName cluster i = cluster.ObjectMeta.Name ++ "-" ++ toString i ∧
      getParentNameAndOrdinal pod = (cluster.ObjectMeta.Name, i) := by
  refine ⟨rfl, ?_⟩
  obtain ⟨n, rfl⟩ := Int.eq_ofNat_of_zero_le h0
  obtain ⟨hne, hd, hv⟩ := repr_spec n
  have hdata : pod.ObjectMeta.Name.data =
      cluster.ObjectMeta.Name.data ++ '-' :: (toString n).data := by
    rw [hname]
    exact data_hyphen_append _ _
  have hq : cluster.ObjectMeta.Name.data.all isDot = true := by
    rw [List.all_eq_true]
    intro c hc
    have : c ≠ '\n' := fun e => hP (e ▸ hc)
    simpa [isDot] using this
  have hm := findMatch_complete hq hne hd
  rw [← hdata] at hm
  rw [getParentNameAndOrdinal_of_match hm, ParseInt_digits hne hd]
  have hval : decVal 0 (toString n).data = n := by rw [hv 0]; omega
  have hlt : n < 2 ^ 31 := by omega
  rw [hval, if_pos hlt]

/-- Witness for `getParentNameAndOrdinal_getPodName`: cluster `sdn1`, ordinal 2. -/
theorem getParentNameAndOrdinal_getPodName_witness :
    ('\n' ∉ (clusterNamed "sdn1").ObjectMeta.Name.data ∧ (0 : Int) ≤ 2 ∧ (2 : Int) ≤ 2 ^ 31 - 1 ∧
      (podNamed "sdn1-2").ObjectMeta.Name = getPodName (clusterNamed "sdn1") 2) ∧
    getPodName (clusterNamed "sdn1") 2 = "sdn1" ++ "-" ++ toString (2 : Int) ∧
      getParentNameAndOrdinal (podNamed "sdn1-2") = ("sdn1", 2) :=
  ⟨⟨by decide, by decide, by decide, by decide⟩,
    getParentNameAndOrdinal_getPodName (clusterNamed "sdn1") (podNamed "sdn1-2") 2
      (by decide) (by decide) (by decide) (by decide)⟩

/-- C1 (counterexample): the round trip as stated fails.  The parent `"a\nb"` ends in no digit,
yet the pod name built from it and ordinal 0 resolves to parent `"b"`; and the parent `"a"` with
the ordinal `2^31` resolves to ordinal `-1`. -/
theorem getParentNameAndOrdinal_roundtrip_counterexample :
    ("a\nb".data.getLast?.map isDigit = some false ∧
      getParentNameAndOrdinal (podNamed (getPodName (clusterNamed "a\nb") 0)) = ("b", 0) ∧
      getParentNameAndOrdinal (podNamed (getPodName (clusterNamed "a\nb") 0)) ≠ ("a\nb", 0)) ∧
    ("a".data.getLast?.map isDigit = some false ∧
      getParentNameAndOrdinal (podNamed (getPodName (clusterNamed "a") 2147483648)) = ("a", -1) ∧
      getParentNameAndOrdinal (podNamed (getPodName (clusterNamed "a") 2147483648))
        ≠ ("a", 2147483648)) := by
  decide

/-- C2: identity resolution never fails and yields the sentinel on non-matching names.  For every
pod whose name does not end with a hyphen followed by one or more decimal digits,
`getParentNameAndOrdinal` returns `("", -1)`, `getParentName` returns `""` and `getOrdinal`
returns `-1`. -/
theorem getParentNameAndOrdinal_sentinel (pod : Pod)
    (h : ∀ pre ds : String, ds.data ≠ [] → ds.data.all isDigit = true →
      pod.ObjectMeta.Name ≠ pre ++ "-" ++ ds) :
    getParentNameAndOrdinal pod = ("", -1) ∧ getParentName pod = "" ∧ getOrdinal pod = -1 := by
  have hno : findMatch pod.ObjectMeta.Name.data = none := by
    rcases hm : findMatch pod.ObjectMeta.Name.data with _ | ⟨g1, g2⟩
    · rfl
    · obtain ⟨pre, h1, h2, h3, -⟩ := findMatch_sound _ hm
      refine absurd ?_ (h (String.mk (pre ++ g1)) (String.mk g2) h2 h3)
      apply String.ext
      rw [data_hyphen_append, h1, List.append_assoc]
  have hres := getParentNameAndOrdinal_of_no_match hno
  refine ⟨hres, ?_, ?_⟩
  · rw [getParentName, hres]
  · rw [getOrdinal, hres]

/-- Witness for `getParentNameAndOrdinal_sentinel`: the names `"no-ordinal-here"` and `""`. -/
theorem getParentNameAndOrdinal_sentinel_witness :
    ((∀ pre ds : String, ds.data ≠ [] → ds.data.all isDigit = true →
        (podNamed "no-ordinal-here").ObjectMeta.Name ≠ pre ++ "-" ++ ds) ∧
      (∀ pre ds : String, ds.data ≠ [] → ds.data.all isDigit = true →
        (podNamed "").ObjectMeta.Name ≠ pre ++ "-" ++ ds)) ∧
    (getParentNameAndOrdinal (podNamed "no-ordinal-here") = ("", -1) ∧
      getParentName (podNamed "no-ordinal-here") = "" ∧
      getOrdinal (podNamed "no-ordinal-here") = -1) ∧
    (getParentNameAndOrdinal (podNamed "") = ("", -1) ∧ getParentName (podNamed "") = "" ∧
      getOrdinal (podNamed "") = -1) :=
  ⟨⟨not_hyphen_digits_of_getLast "no-ordinal-here" (by decide),
      not_hyphen_digits_of_getLast "" (by decide)⟩,
    getParentNameAndOrdinal_sentinel (podNamed "no-ordinal-here")
      (not_hyphen_digits_of_getLast "no-ordinal-here" (by decide)),
    getParentNameAndOrdinal_sentinel (podNamed "")
      (not_hyphen_digits_of_getLast "" (by decide))⟩

/-- C3: only the trailing hyphen-digit group is taken as the ordinal.  For every string `Q`
without a line feed and every non-empty run `D` of decimal digits, a pod named `Q ++ "-" ++ D`
has parent exactly `Q` (also when `Q` itself ends with a hyphen-digit group), and its ordinal is
read from `D` alone. -/
theorem getParentNameAndOrdinal_trailing_group (pod : Pod) (Q D : String)
    (hQ : '\n' ∉ Q.data) (hne : D.data ≠ []) (hD : D.data.all isDigit = true)
    (hname : pod.ObjectMeta.Name = Q ++ "-" ++ D) :
    (getParentNameAndOrdinal pod).1 = Q ∧
      (getParentNameAndOrdinal pod).2 =
        (match ParseInt D.data 32 with | some i => i | none => -1) := by
  have hq : Q.data.all isDot = true := by
    rw [List.all_eq_true]
    intro c hc
    have : c ≠ '\n' := fun e => hQ (e ▸ hc)
    simpa [isDot] using this
  have hm := findMatch_complete hq hne hD
  rw [← data_hyphen_append, ← hname] at hm
  rw [getParentNameAndOrdinal_of_match hm]
  exact ⟨rfl, rfl⟩

/-- Witness for `getParentNameAndOrdinal_trailing_group`: the name `"a-1-2"` has parent `"a-1"`
(and ordinal 2). -/
theorem getParentNameAndOrdinal_trailing_group_witness :
    ('\n' ∉ "a-1".data ∧ "2".data ≠ [] ∧ "2".data.all isDigit = true ∧
      (podNamed "a-1-2").ObjectMeta.Name = "a-1" ++ "-" ++ "2") ∧
    ((getParentNameAndOrdinal (podNamed "a-1-2")).1 = "a-1" ∧
      (getParentNameAndOrdinal (podNamed "a-1-2")).2 =
        (match ParseInt "2".data 32 with | some i => i | none => -1)) ∧
    getParentNameAndOrdinal (podNamed "a-1-2") = ("a-1", 2) :=
  ⟨⟨by decide, by decide, by decide, by decide⟩,
    getParentNameAndOrdinal_trailing_group (podNamed "a-1-2") "a-1" "2"
      (by decide) (by decide) (by decide) (by decide),
    by decide⟩

/-- C4: leading zeros in the ordinal parse to their integer value.  For every prefix `P`, every
`k ≥ 0` and every `0 ≤ i ≤ 2^31 - 1`, the ordinal of a pod named
`P ++ "-" ++ (k zeros) ++ decimal i` is `i`. -/
theorem getOrdinal_leading_zeros (pod : Pod) (P : String) (k : Nat) (i : Int)
    (h0 : 0 ≤ i) (hmax : i ≤ 2 ^ 31 - 1)
    (hname : pod.ObjectMeta.Name = P ++ "-" ++ String.mk (List.replicate k '0') ++ toString i) :
    getOrdinal pod = i := by
  obtain ⟨n, rfl⟩ := Int.eq_ofNat_of_zero_le h0
  obtain ⟨hne, hd, hv⟩ := repr_spec n
  have hdata : pod.ObjectMeta.Name.data =
      P.data ++ '-' :: (List.replicate k '0' ++ (toString n).data) := by
    rw [hname]
    show (P ++ "-" ++ String.mk (List.replicate k '0') ++ toString n).data = _
    simp only [String.data_append, List.append_assoc]
    rfl
  have hne2 : List.replicate k '0' ++ (toString n).data ≠ [] := by simp [hne]
  have hd2 : (List.replicate k '0' ++ (toString n).data).all isDigit = true := by
    rw [List.all_append, hd, Bool.and_true, List.all_eq_true]
    intro c hc
    rw [List.eq_of_mem_replicate hc]
    decide
  obtain ⟨pre, g1, -, hm⟩ := findMatch_group2 P.data hne2 hd2
  rw [← hdata] at hm
  rw [getOrdinal, getParentNameAndOrdinal_of_match hm, ParseInt_digits hne2 hd2]
  have hval : decVal 0 (List.replicate k '0' ++ (toString n).data) = n := by
    rw [decVal_append, decVal_zeros, hv 0]; omega
  have hlt : n < 2 ^ 31 := by omega
  rw [hval, if_pos hlt]

/-- Witness for `getOrdinal_leading_zeros`: the name `"x-007"` has ordinal 7. -/
theorem getOrdinal_leading_zeros_witness :
    ((0 : Int) ≤ 7 ∧ (7 : Int) ≤ 2 ^ 31 - 1 ∧
      (podNamed "x-007").ObjectMeta.Name =
        "x" ++ "-" ++ String.mk (List.replicate 2 '0') ++ toString (7 : Int)) ∧
    getOrdinal (podNamed "x-007") = 7 :=
  ⟨⟨by decide, by decide, by decide⟩,
    getOrdinal_leading_zeros (podNamed "x-007") "x" 2 7 (by decide) (by decide) (by decide)⟩

/-! ## Naming, labelling and wiring of the child resources -/

/-- C5 (the code at the failing input): for the cluster `sdn1` the service selector is
`{app: "sdn1"}` while the pod labels are `{app: "onos", cluster: "sdn1"}`; the selector pair is
not among the labels, so the service does not select the cluster's pod. -/
theorem NewOnosService_selector_misses_pod :
    (NewOnosService (clusterNamed "sdn1")).Spec.Selector = [("app", "sdn1")] ∧
    (NewOnosPod (clusterNamed "sdn1") 0).ObjectMeta.Labels =
      [("app", "onos"), ("cluster", "sdn1")] ∧
    selects (NewOnosService (clusterNamed "sdn1")).Spec.Selector
      (NewOnosPod (clusterNamed "sdn1") 0).ObjectMeta.Labels = false := by
  decide

/-- C6 (the code at the failing input): for the cluster `sdn1` the service is named `sdn1` and the
bootstrap ConfigMap `sdn1-init`, but the probe ConfigMap is named `sdn1-init` as well, not
`sdn1-probe`: the two ConfigMaps share one name. -/
theorem NewProbeConfigMap_name_collides :
    (NewOnosService (clusterNamed "sdn1")).ObjectMeta.Name = "sdn1" ∧
    (NewInitConfigMap (clusterNamed "sdn1")).ObjectMeta.Name = "sdn1-init" ∧
    (NewProbeConfigMap (clusterNamed "sdn1")).ObjectMeta.Name = "sdn1-init" ∧
    (NewProbeConfigMap (clusterNamed "sdn1")).ObjectMeta.Name ≠ "sdn1-probe" ∧
    (NewProbeConfigMap (clusterNamed "sdn1")).ObjectMeta.Name =
      (NewInitConfigMap (clusterNamed "sdn1")).ObjectMeta.Name := by
  decide

/-- C7 (the code at the failing input): in the pod of cluster `sdn1` the `init-scripts` volume
refers to the bootstrap ConfigMap by its name, every volume mounted by the init and main
containers is declared, but the `probe-scripts` volume refers to `sdn1-probe`, which is not the
name of the probe ConfigMap (`sdn1-init`). -/
theorem NewOnosPod_probe_volume_dangling :
    configMapRef (NewOnosPod (clusterNamed "sdn1") 0) InitScriptsVolume =
      some (NewInitConfigMap (clusterNamed "sdn1")).ObjectMeta.Name ∧
    (∀ c ∈ (NewOnosPod (clusterNamed "sdn1") 0).Spec.InitContainers ++
        (NewOnosPod (clusterNamed "sdn1") 0).Spec.Containers,
      ∀ m ∈ c.VolumeMounts,
        m.Name ∈ (NewOnosPod (clusterNamed "sdn1") 0).Spec.Volumes.map (fun v => v.Name)) ∧
    configMapRef (NewOnosPod (clusterNamed "sdn1") 0) ProbeScriptsVolume = some "sdn1-probe" ∧
    (NewProbeConfigMap (clusterNamed "sdn1")).ObjectMeta.Name = "sdn1-init" ∧
    configMapRef (NewOnosPod (clusterNamed "sdn1") 0) ProbeScriptsVolume ≠
      some (NewProbeConfigMap (clusterNamed "sdn1")).ObjectMeta.Name := by
  decide

/-- C8: coordination-service resolution.  For every cluster named `N` and every ordinal the pod
has exactly one init container, and that container has exactly one environment variable,
`ATOMIX_CLUSTER`, whose value is `cluster.Spec.Atomix.Service` when that override is non-empty
and `N ++ "-atomix"` otherwise. -/
theorem NewOnosPod_init_env (cluster : OnosCluster) (ordinal : Int) :
    (NewOnosPod cluster ordinal).Spec.InitContainers.map (fun c => c.Env) =
      [[{ Name := "ATOMIX_CLUSTER"
          Value := if cluster.Spec.Atomix.Service ≠ "" then cluster.Spec.Atomix.Service
                   else cluster.ObjectMeta.Name ++ "-atomix" }]] := by
  by_cases h : cluster.Spec.Atomix.Service = ""
  · simp only [NewOnosPod, newInitContainers, newInitContainer, getAtomixServiceName,
      getResourceName, AtomixSuffix, h, List.map_cons, List.map_nil, if_true, ne_eq,
      not_true_eq_false, if_false, String.append_assoc]
    rfl
  · simp only [NewOnosPod, newInitContainers, newInitContainer, h, List.map_cons, List.map_nil,
      if_false, ne_eq, not_false_eq_true, if_true]

/-- C9: every child resource carries exactly the cluster labels.  For every cluster named `N` and
every ordinal, the labels of the service, of the two ConfigMaps and of the pod are the two-entry
map `{app: "onos", cluster: N}`. -/
theorem child_resources_labels (cluster : OnosCluster) (ordinal : Int) :
    (NewOnosService cluster).ObjectMeta.Labels =
      [("app", "onos"), ("cluster", cluster.ObjectMeta.Name)] ∧
    (NewInitConfigMap cluster).ObjectMeta.Labels =
      [("app", "onos"), ("cluster", cluster.ObjectMeta.Name)] ∧
    (NewProbeConfigMap cluster).ObjectMeta.Labels =
      [("app", "onos"), ("cluster", cluster.ObjectMeta.Name)] ∧
    (NewOnosPod cluster ordinal).ObjectMeta.Labels =
      [("app", "onos"), ("cluster", cluster.ObjectMeta.Name)] :=
  ⟨rfl, rfl, rfl, rfl⟩

/-- C10: the workload units of a cluster of size `N` have no duplicate names.  For every cluster
named `C`, every `N` and all ordinals `i ≠ j` below `N`, the pods are named `C ++ "-" ++ i` and
`C ++ "-" ++ j`, and the two names differ. -/
theorem NewOnosPod_names_distinct (cluster : OnosCluster) (N : Nat) (i j : Fin N)
    (hij : i ≠ j) :
    (NewOnosPod cluster (i.val : Int)).ObjectMeta.Name =
      cluster.ObjectMeta.Name ++ "-" ++ toString i.val ∧
    (NewOnosPod cluster (j.val : Int)).ObjectMeta.Name =
      cluster.ObjectMeta.Name ++ "-" ++ toString j.val ∧
    (NewOnosPod cluster (i.val : Int)).ObjectMeta.Name ≠
      (NewOnosPod cluster (j.val : Int)).ObjectMeta.Name := by
  have hi : (NewOnosPod cluster (i.val : Int)).ObjectMeta.Name =
      cluster.ObjectMeta.Name ++ "-" ++ toString i.val := rfl
  have hj : (NewOnosPod cluster (j.val : Int)).ObjectMeta.Name =
      cluster.ObjectMeta.Name ++ "-" ++ toString j.val := rfl
  refine ⟨hi, hj, ?_⟩
  rw [hi, hj]
  intro heq
  have hdata := congrArg String.data heq
  rw [data_hyphen_append, data_hyphen_append] at hdata
  have htail := List.append_cancel_left hdata
  simp only [List.cons.injEq, true_and] at htail
  exact hij (Fin.ext (toString_nat_injective (String.ext htail)))

/-- Witness for `NewOnosPod_names_distinct`: ordinals 0 and 2 of the cluster `sdn1` of size 3. -/
theorem NewOnosPod_names_distinct_witness :
    ((⟨0, by decide⟩ : Fin 3) ≠ ⟨2, by decide⟩) ∧
    (NewOnosPod (clusterNamed "sdn1") ((0 : Nat) : Int)).ObjectMeta.Name =
      "sdn1" ++ "-" ++ toString (0 : Nat) ∧
    (NewOnosPod (clusterNamed "sdn1") ((2 : Nat) : Int)).ObjectMeta.Name =
      "sdn1" ++ "-" ++ toString (2 : Nat) ∧
    (NewOnosPod (clusterNamed "sdn1") ((0 : Nat) : Int)).ObjectMeta.Name ≠
      (NewOnosPod (clusterNamed "sdn1") ((2 : Nat) : Int)).ObjectMeta.Name :=
  ⟨by decide, NewOnosPod_names_distinct (clusterNamed "sdn1") 3 ⟨0, by decide⟩ ⟨2, by decide⟩
    (by decide)⟩

/-! ## Lemmas: the mount set of the main container -/

theorem foldl_append_singleton {α β : Type} (f : β → α) : ∀ (l : List β) (init : List α),
    l.foldl (fun acc b => acc ++ [f b]) init = init ++ l.map f
  | [], init => by simp
  | b :: l, init => by
    rw [List.foldl_cons, foldl_append_singleton f l, List.map_cons, List.append_assoc]
    rfl

theorem newContainer_VolumeMounts (env : List EnvVar) (resources : ResourceRequirements)
    (apps : List String) :
    (newContainer env resources apps).VolumeMounts =
      [ { Name := ProbeScriptsVolume
          MountPath := "/root/onos/bin/check-onos-status"
          SubPath := "check-onos-status" },
        { Name := ConfigVolume
          MountPath := "/root/onos/config/cluster.json"
          SubPath := "cluster.json" } ] ++
      apps.map (fun app =>
        ({ Name := ConfigVolume
           MountPath := "/root/onos/apps/" ++ app ++ "/active"
           SubPath := "active" } : VolumeMount)) := by
  simp only [newContainer]
  exact foldl_append_singleton _ apps _

theorem app_mount_path_ne (app : String) :
    "/root/onos/apps/" ++ app ++ "/active" ≠ "/root/onos/bin/check-onos-status" := by
  intro h
  have hd := congrArg (fun s : String => s.data.take 12) h
  simp only [String.data_append, List.cons_append, List.take_succ_cons, List.cons.injEq] at hd
  exact absurd hd.2.2.2.2.2.2.2.2.2.2.2.1 (by decide)

/-! ## The main container: mounts, probes, frame -/

/-- C11: application activation mounts.  For every list `apps`, the volume mounts of
`newContainer env resources apps` are the two fixed mounts (probe script at
`/root/onos/bin/check-onos-status`, membership configuration at
`/root/onos/config/cluster.json`) followed by exactly one mount per element of `apps`, in the
same order, each on the `config` volume with sub-path `active` and mount path
`"/root/onos/apps/" ++ app ++ "/active"`; the mount count is `2 + apps.length`. -/
theorem newContainer_mounts (env : List EnvVar) (resources : ResourceRequirements)
    (apps : List String) :
    (newContainer env resources apps).VolumeMounts =
      [ { Name := "probe-scripts"
          MountPath := "/root/onos/bin/check-onos-status"
          SubPath := "check-onos-status" },
        { Name := "config"
          MountPath := "/root/onos/config/cluster.json"
          SubPath := "cluster.json" } ] ++
      apps.map (fun app =>
        ({ Name := "config"
           MountPath := "/root/onos/apps/" ++ app ++ "/active"
           SubPath := "active" } : VolumeMount)) ∧
    (newContainer env resources apps).VolumeMounts.length = 2 + apps.length := by
  have h := newContainer_VolumeMounts env resources apps
  refine ⟨h, ?_⟩
  rw [h, List.length_append, List.length_map]
  rfl

/-- C12: changing `Spec.Apps` affects only the mount set of the main container.  For any two
clusters that agree on every field except `Spec.Apps`, and every ordinal, the pods agree on every
field (name, namespace, labels, init containers, volumes, and the main container's image,
environment, resources, ports, security context and probes) except the main container's volume
mounts; the service and the two ConfigMaps are equal. -/
theorem apps_change_only_main_mounts (c₁ c₂ : OnosCluster) (ordinal : Int)
    (hmeta : c₁.ObjectMeta = c₂.ObjectMeta) (hsize : c₁.Spec.Size = c₂.Spec.Size)
    (henv : c₁.Spec.Env = c₂.Spec.Env) (hres : c₁.Spec.Resources = c₂.Spec.Resources)
    (hatomix : c₁.Spec.Atomix = c₂.Spec.Atomix) :
    withoutMainMounts (NewOnosPod c₁ ordinal) = withoutMainMounts (NewOnosPod c₂ ordinal) ∧
    NewOnosService c₁ = NewOnosService c₂ ∧
    NewInitConfigMap c₁ = NewInitConfigMap c₂ ∧
    NewProbeConfigMap c₁ = NewProbeConfigMap c₂ := by
  obtain ⟨m₁, ⟨s₁, e₁, r₁, a₁, x₁⟩⟩ := c₁
  obtain ⟨m₂, ⟨s₂, e₂, r₂, a₂, x₂⟩⟩ := c₂
  simp only at hmeta hsize henv hres hatomix
  subst hmeta hsize henv hres hatomix
  exact ⟨rfl, rfl, rfl, rfl⟩

/-- Witness for `apps_change_only_main_mounts`: the cluster `sdn1` with the application `fwd` and
with the applications `fwd`, `proxyarp`, ordinal 1. -/
theorem apps_change_only_main_mounts_witness :
    ((clusterWithApps "sdn1" ["fwd"]).Spec.Apps ≠
        (clusterWithApps "sdn1" ["fwd", "proxyarp"]).Spec.Apps ∧
      (clusterWithApps "sdn1" ["fwd"]).ObjectMeta =
        (clusterWithApps "sdn1" ["fwd", "proxyarp"]).ObjectMeta ∧
      (clusterWithApps "sdn1" ["fwd"]).Spec.Size =
        (clusterWithApps "sdn1" ["fwd", "proxyarp"]).Spec.Size ∧
      (clusterWithApps "sdn1" ["fwd"]).Spec.Env =
        (clusterWithApps "sdn1" ["fwd", "proxyarp"]).Spec.Env ∧
      (clusterWithApps "sdn1" ["fwd"]).Spec.Resources =
        (clusterWithApps "sdn1" ["fwd", "proxyarp"]).Spec.Resources ∧
      (clusterWithApps "sdn1" ["fwd"]).Spec.Atomix =
        (clusterWithApps "sdn1" ["fwd", "proxyarp"]).Spec.Atomix) ∧
    (withoutMainMounts (NewOnosPod (clusterWithApps "sdn1" ["fwd"]) 1) =
        withoutMainMounts (NewOnosPod (clusterWithApps "sdn1" ["fwd", "proxyarp"]) 1) ∧
      NewOnosService (clusterWithApps "sdn1" ["fwd"]) =
        NewOnosService (clusterWithApps "sdn1" ["fwd", "proxyarp"]) ∧
      NewInitConfigMap (clusterWithApps "sdn1" ["fwd"]) =
        NewInitConfigMap (clusterWithApps "sdn1" ["fwd", "proxyarp"]) ∧
      NewProbeConfigMap (clusterWithApps "sdn1" ["fwd"]) =
        NewProbeConfigMap (clusterWithApps "sdn1" ["fwd", "proxyarp"])) :=
  ⟨⟨by decide, rfl, rfl, rfl, rfl, rfl⟩,
    apps_change_only_main_mounts (clusterWithApps "sdn1" ["fwd"])
      (clusterWithApps "sdn1" ["fwd", "proxyarp"]) 1 rfl rfl rfl rfl rfl⟩

/-- C13: the network endpoint is headless and publishes not-ready members.  For every cluster,
`NewOnosService` has cluster IP `"None"`, `PublishNotReadyAddresses = true`, and exactly one port,
numbered 5679. -/
theorem NewOnosService_headless (cluster : OnosCluster) :
    (NewOnosService cluster).Spec.ClusterIP = "None" ∧
    (NewOnosService cluster).Spec.PublishNotReadyAddresses = true ∧
    (NewOnosService cluster).Spec.Ports.map (fun p => p.Port) = [5679] :=
  ⟨rfl, rfl, rfl⟩

/-- C14: health-check timing policy.  For every input the main container has a readiness probe
with initial delay 30 s, timeout 15 s and failure threshold 10, and a liveness probe with initial
delay 300 s, the same timeout 15 s and failure threshold 5; so liveness waits strictly longer
before its first check and readiness tolerates strictly more consecutive failures. -/
theorem newContainer_probe_timing (env : List EnvVar) (resources : ResourceRequirements)
    (apps : List String) :
    ∃ r l : Probe,
      (newContainer env resources apps).ReadinessProbe = some r ∧
      (newContainer env resources apps).LivenessProbe = some l ∧
      r.InitialDelaySeconds = 30 ∧ r.TimeoutSeconds = 15 ∧ r.FailureThreshold = 10 ∧
      l.InitialDelaySeconds = 300 ∧ l.TimeoutSeconds = 15 ∧ l.FailureThreshold = 5 ∧
      r.TimeoutSeconds = l.TimeoutSeconds ∧
      r.InitialDelaySeconds < l.InitialDelaySeconds ∧
      l.FailureThreshold < r.FailureThreshold :=
  ⟨_, _, rfl, rfl, rfl, rfl, rfl, rfl, rfl, rfl, rfl, by decide, by decide⟩

/-- C15 (as amended): the probe script mount carries no read-only flag.  For every input exactly
one volume mount of `newContainer` has the mount path `/root/onos/bin/check-onos-status`; it is
the mount of the `probe-scripts` volume with sub-path `check-onos-status`, and its `ReadOnly` is
`false` (the field is not set). -/
theorem newContainer_probe_mount (env : List EnvVar) (resources : ResourceRequirements)
    (apps : List String) :
    (newContainer env resources apps).VolumeMounts.filter
        (fun m => m.MountPath == "/root/onos/bin/check-onos-status") =
      [ { Name := "probe-scripts"
          ReadOnly := false
          MountPath := "/root/onos/bin/check-onos-status"
          SubPath := "check-onos-status" } ] := by
  rw [newContainer_VolumeMounts, List.filter_append]
  have happs : (apps.map (fun app =>
      ({ Name := ConfigVolume
         MountPath := "/root/onos/apps/" ++ app ++ "/active"
         SubPath := "active" } : VolumeMount))).filter
        (fun m => m.MountPath == "/root/onos/bin/check-onos-status") = [] := by
    rw [List.filter_eq_nil_iff]
    intro m hm
    obtain ⟨app, -, rfl⟩ := List.mem_map.mp hm
    simpa using app_mount_path_ne app
  rw [happs, List.append_nil]
  rfl

/-- C15 (counterexample): with no environment, no resources and no application, the one mount at
`/root/onos/bin/check-onos-status` has `ReadOnly = false`, not `true`. -/
theorem newContainer_probe_mount_not_readonly :
    ((newContainer [] {} []).VolumeMounts.filter
        (fun m => m.MountPath == "/root/onos/bin/check-onos-status")).map (fun m => m.ReadOnly)
      = [false] := by
  decide

/-! ## Validation, script wiring, ordinal range, replica uniformity -/

/-- C16 (as amended): the constructors do not validate the specification.  For every cluster,
every value of `Spec.Size` (negative ones included) and every ordinal (negative ones included)
each of the four constructors returns a manifest, the same one as for any other size: `Spec.Size`
is not read.  The pod of a negative ordinal `-(k+1)` is named `N ++ "-" ++ "-" ++ decimal (k+1)`. -/
theorem constructors_ignore_size (cluster : OnosCluster) (size ordinal : Int) (k : Nat) :
    NewOnosService (withSize cluster size) = NewOnosService cluster ∧
    NewInitConfigMap (withSize cluster size) = NewInitConfigMap cluster ∧
    NewProbeConfigMap (withSize cluster size) = NewProbeConfigMap cluster ∧
    NewOnosPod (withSize cluster size) ordinal = NewOnosPod cluster ordinal ∧
    (NewOnosPod cluster (Int.negSucc k)).ObjectMeta.Name =
      cluster.ObjectMeta.Name ++ "-" ++ ("-" ++ toString (k + 1)) :=
  ⟨rfl, rfl, rfl, rfl, rfl⟩

/-- C16 (counterexample): for the cluster `sdn1` with `Spec.Size = -1` all four constructors
return a manifest, the pod also for the ordinal `-1` (it is named `sdn1--1`). -/
theorem constructors_accept_negative_size :
    (withSize (clusterNamed "sdn1") (-1)).Spec.Size < 0 ∧
    (NewOnosService (withSize (clusterNamed "sdn1") (-1))).ObjectMeta.Name = "sdn1" ∧
    (NewInitConfigMap (withSize (clusterNamed "sdn1") (-1))).ObjectMeta.Name = "sdn1-init" ∧
    keys (NewProbeConfigMap (withSize (clusterNamed "sdn1") (-1))).Data = ["check-onos-status"] ∧
    (NewOnosPod (withSize (clusterNamed "sdn1") (-1)) 0).ObjectMeta.Name = "sdn1-0" ∧
    (NewOnosPod (withSize (clusterNamed "sdn1") (-1)) (-1)).ObjectMeta.Name = "sdn1--1" ∧
    ((NewOnosPod (withSize (clusterNamed "sdn1") (-1)) (-1)).Spec.Containers.map
      (fun c => c.Name)) = ["onos"] := by
  decide

/-- C17 (the code on every input): the init container mounts the `init-scripts` volume at
`/scripts` and its command runs `/scripts/configure-onos.sh`, while the single data key of the
bootstrap ConfigMap is `create_config.sh`; the path run is not `"/scripts/" ++ key`. -/
theorem init_script_path_mismatch (cluster : OnosCluster) (ordinal : Int) :
    (NewOnosPod cluster ordinal).Spec.InitContainers.map
        (fun c => (c.VolumeMounts.filter (fun m => m.Name == InitScriptsVolume)).map
          (fun m => m.MountPath)) = [["/scripts"]] ∧
    (NewOnosPod cluster ordinal).Spec.InitContainers.map (fun c => commandPath c.Command) =
      ["/scripts/configure-onos.sh"] ∧
    keys (NewInitConfigMap cluster).Data = ["create_config.sh"] ∧
    (NewOnosPod cluster ordinal).Spec.InitContainers.map (fun c => commandPath c.Command) ≠
      (keys (NewInitConfigMap cluster).Data).map (fun k => "/scripts/" ++ k) := by
  refine ⟨?_, ?_, ?_, ?_⟩
  · simp only [NewOnosPod, newInitContainers, newInitContainer, List.map_cons, List.map_nil]
    decide
  · simp only [NewOnosPod, newInitContainers, newInitContainer, List.map_cons, List.map_nil]
    decide
  · rfl
  · simp only [NewOnosPod, newInitContainers, newInitContainer, NewInitConfigMap, keys,
      List.map_cons, List.map_nil]
    decide

/-- C18: probe wiring is self-consistent.  For every input the readiness and liveness probes of
the main container exec the identical command; the path that command runs,
`/root/onos/bin/check-onos-status`, is the mount path of the main container's one `probe-scripts`
mount; and the sub-path of that mount is the single data key of `NewProbeConfigMap`,
`check-onos-status`. -/
theorem probe_wiring (cluster : OnosCluster) (env : List EnvVar)
    (resources : ResourceRequirements) (apps : List String) :
    ∃ (r l : Probe) (e : ExecAction) (m : VolumeMount),
      (newContainer env resources apps).ReadinessProbe = some r ∧
      (newContainer env resources apps).LivenessProbe = some l ∧
      r.Handler.Exec = some e ∧ l.Handler.Exec = some e ∧
      commandPath e.Command = "/root/onos/bin/check-onos-status" ∧
      (newContainer env resources apps).VolumeMounts.filter
        (fun m => m.Name == ProbeScriptsVolume) = [m] ∧
      m.MountPath = commandPath e.Command ∧
      keys (NewProbeConfigMap cluster).Data = [m.SubPath] ∧
      m.SubPath = "check-onos-status" := by
  refine ⟨_, _, _, { Name := ProbeScriptsVolume
                     MountPath := "/root/onos/bin/check-onos-status"
                     SubPath := "check-onos-status" },
    rfl, rfl, rfl, rfl, by decide, ?_, by decide, rfl, rfl⟩
  rw [newContainer_VolumeMounts, List.filter_append]
  have happs : (apps.map (fun app =>
      ({ Name := ConfigVolume
         MountPath := "/root/onos/apps/" ++ app ++ "/active"
         SubPath := "active" } : VolumeMount))).filter
        (fun m => m.Name == ProbeScriptsVolume) = [] := by
    rw [List.filter_eq_nil_iff]
    intro m hm
    obtain ⟨app, -, rfl⟩ := List.mem_map.mp hm
    show ¬ ((ConfigVolume == ProbeScriptsVolume) = true)
    decide
  rw [happs, List.append_nil]
  decide

/-- C19: ordinal range and overflow.  The ordinal of any pod `other` is `-1` or lies in
`0 .. 2^31 - 1`; and for a pod named `P ++ "-" ++ D`, where `P` has no line feed and `D` is a
non-empty run of decimal digits whose value exceeds `2^31 - 1`, the result is `(P, -1)`: a parent
reported together with the sentinel ordinal. -/
theorem getParentNameAndOrdinal_overflow (other pod : Pod) (P D : String)
    (hP : '\n' ∉ P.data) (hne : D.data ≠ []) (hD : D.data.all isDigit = true)
    (hbig : 2 ^ 31 - 1 < decVal 0 D.data) (hname : pod.ObjectMeta.Name = P ++ "-" ++ D) :
    (getOrdinal other = -1 ∨ (0 ≤ getOrdinal other ∧ getOrdinal other ≤ 2 ^ 31 - 1)) ∧
      getParentNameAndOrdinal pod = (P, -1) := by
  constructor
  · rcases hm : findMatch other.ObjectMeta.Name.data with _ | ⟨g1, g2⟩
    · left
      rw [getOrdinal, getParentNameAndOrdinal_of_no_match hm]
    · obtain ⟨-, -, h2, h3, -⟩ := findMatch_sound _ hm
      rw [getOrdinal, getParentNameAndOrdinal_of_match hm, ParseInt_digits h2 h3]
      by_cases hlt : decVal 0 g2 < 2 ^ 31
      · right
        rw [if_pos hlt]
        show (0 : Int) ≤ (decVal 0 g2 : Int) ∧ (decVal 0 g2 : Int) ≤ 2 ^ 31 - 1
        constructor
        · exact Int.ofNat_nonneg _
        · have : (decVal 0 g2 : Int) < 2 ^ 31 := by exact_mod_cast hlt
          omega
      · left
        rw [if_neg hlt]
  · have hq : P.data.all isDot = true := by
      rw [List.all_eq_true]
      intro c hc
      have : c ≠ '\n' := fun e => hP (e ▸ hc)
      simpa [isDot] using this
    have hm := findMatch_complete hq hne hD
    rw [← data_hyphen_append, ← hname] at hm
    have hnot : ¬ decVal 0 D.data < 2 ^ 31 := by omega
    rw [getParentNameAndOrdinal_of_match hm, ParseInt_digits hne hD, if_neg hnot]

/-- Witness for `getParentNameAndOrdinal_overflow`: the name `"a-2147483648"` resolves to
`("a", -1)`, and the ordinal of `"a-2147483647"` is within the range. -/
theorem getParentNameAndOrdinal_overflow_witness :
    ('\n' ∉ "a".data ∧ "2147483648".data ≠ [] ∧ "2147483648".data.all isDigit = true ∧
      2 ^ 31 - 1 < decVal 0 "2147483648".data ∧
      (podNamed "a-2147483648").ObjectMeta.Name = "a" ++ "-" ++ "2147483648") ∧
    ((getOrdinal (podNamed "a-2147483647") = -1 ∨
        (0 ≤ getOrdinal (podNamed "a-2147483647") ∧
          getOrdinal (podNamed "a-2147483647") ≤ 2 ^ 31 - 1)) ∧
      getParentNameAndOrdinal (podNamed "a-2147483648") = ("a", -1)) :=
  ⟨⟨by decide, by decide, by decide, by decide, by decide⟩,
    getParentNameAndOrdinal_overflow (podNamed "a-2147483647") (podNamed "a-2147483648") "a"
      "2147483648" (by decide) (by decide) (by decide) (by decide) (by decide)⟩

/-- C20: replica uniformity.  For every cluster and any two ordinals `i` and `j`, the pods
`NewOnosPod cluster i` and `NewOnosPod cluster j` are equal in every field except
`ObjectMeta.Name`, and the second pod is the first one renamed to `getPodName cluster j`: the
ordinal influences nothing but the name. -/
theorem NewOnosPod_uniform (cluster : OnosCluster) (i j : Int) :
    withoutName (NewOnosPod cluster i) = withoutName (NewOnosPod cluster j) ∧
    NewOnosPod cluster j =
      { NewOnosPod cluster i with
        ObjectMeta := { (NewOnosPod cluster i).ObjectMeta with Name := getPodName cluster j } } :=
  ⟨rfl, rfl⟩

end OnosOperator
